import Mathlib

/-!
Shallow embedding of the snake game in `src/main.rs`.

Modelling conventions:
* Rust `i32` grid coordinates become `ℤ` (no arithmetic here comes near
  the `i32` range, so wrap-around is irrelevant).
* Rust `%` on `i32` is the truncating remainder, embedded as `Int.tmod`.
* Rust `f32` window/render arithmetic is idealised as `ℚ`; every concrete
  value appearing in the theorems below (multiples of 0.5 up to 500) is
  exactly representable in `f32`, and the claims settled over `ℚ` are
  structural (which term is subtracted, affine shape, sign at draw 0),
  not about rounding.
* `random::<f32>()` produces a draw in `[0, 1)`; the spawner is embedded
  as a function of that draw.
* Bevy ECS plumbing (queries, commands, timers) is embedded by making
  each system an explicit function of the data it reads and writes: the
  timer state collapses to the `Bool` returned by `just_finished`, the
  keyboard to the four pressed-flags the system reads.
-/

namespace SnakeGame

/-- Constant `ARENA_WIDTH` from the source (`const ARENA_WIDTH: u32 = 10`). -/
def ARENA_WIDTH : ℤ := 10

/-- Constant `ARENA_HEIGHT` from the source (`const ARENA_HEIGHT: u32 = 10`). -/
def ARENA_HEIGHT : ℤ := 10

/-- Constant `RES_WIDTH` from the source (`const RES_WIDTH: f32 = 500.`). -/
def RES_WIDTH : ℚ := 500

/-- Constant `RES_HEIGHT` from the source (`const RES_HEIGHT: f32 = 500.`). -/
def RES_HEIGHT : ℚ := 500

/-- The `Position` component: integer grid coordinates. -/
structure Position where
  x : ℤ
  y : ℤ
deriving DecidableEq, Repr

/-- The four-way `Direction` enum of the snake head. -/
inductive Direction where
  | Left
  | Up
  | Right
  | Down
deriving DecidableEq, Repr, Fintype

/-- Function `Direction::opposite` from the source. -/
def Direction.opposite : Direction → Direction
  | .Left => .Right
  | .Right => .Left
  | .Up => .Down
  | .Down => .Up

/-- The `Size` component: width/height used for render scaling. -/
structure Size where
  width : ℚ
  height : ℚ
deriving DecidableEq, Repr

/-- Function `Size::square` from the source. -/
def Size.square (s : ℚ) : Size := ⟨s, s⟩

/-- The arrow keys whose pressed state `snake_movement_input` reads. -/
structure ArrowKeys where
  left : Bool
  down : Bool
  up : Bool
  right : Bool
deriving DecidableEq, Repr

/-- The inner `let dir = if ...` chain of `snake_movement_input`: the
desired direction chosen from the pressed keys, defaulting to the
current head direction. -/
def desiredDir (keys : ArrowKeys) (cur : Direction) : Direction :=
  if keys.left then .Left
  else if keys.down then .Down
  else if keys.up then .Up
  else if keys.right then .Right
  else cur

/-- The final `if dir != head.direction.opposite()` update of
`snake_movement_input`: the head keeps `cur` when the desired direction
is its exact opposite, otherwise takes the desired direction. -/
def applyDirection (cur dir : Direction) : Direction :=
  if dir ≠ cur.opposite then dir else cur

/-- The whole `snake_movement_input` system, acting on the head
direction as a function of the pressed arrow keys. -/
def snakeMovementInput (keys : ArrowKeys) (cur : Direction) : Direction :=
  applyDirection cur (desiredDir keys cur)

/-- The body of the `match` in `snake_movement`: one movement tick,
adjusting the head position by ±1 along the axis given by the direction
and reducing with Rust's `%` (truncating remainder, `Int.tmod`). -/
def snakeMovementStep (dir : Direction) (p : Position) : Position :=
  match dir with
  | .Left => { p with x := (p.x - 1).tmod ARENA_WIDTH }
  | .Right => { p with x := (p.x + 1).tmod ARENA_WIDTH }
  | .Up => { p with y := (p.y + 1).tmod ARENA_HEIGHT }
  | .Down => { p with y := (p.y - 1).tmod ARENA_HEIGHT }

/-- The `snake_movement` system: the step happens only when the
repeating movement timer just finished, otherwise the position is left
untouched. -/
def snakeMovement (justFinished : Bool) (dir : Direction) (p : Position) : Position :=
  if justFinished then snakeMovementStep dir p else p

/-- Iterated movement ticks: apply `snakeMovementStep` for each
direction of a list in turn. -/
def runMoves (p : Position) : List Direction → Position
  | [] => p
  | d :: ds => runMoves (snakeMovementStep d p) ds

/-- Head direction the snake is spawned with (`spawn_snake`). -/
def spawnSnakeDirection : Direction := .Up

/-- Position the snake is spawned at (`spawn_snake`). -/
def spawnSnakePosition : Position := ⟨3, 3⟩

/-- The nested `convert` helper of `position_translation`, over `ℚ`:
`pos / bound_game * bound_window - (bound_game / 2.) + (tile_size / 2.)`
with `tile_size = bound_window / bound_game`. -/
def convert (pos bound_window bound_game : ℚ) : ℚ :=
  let tile_size := bound_window / bound_game
  pos / bound_game * bound_window - bound_game / 2 + tile_size / 2

/-- Truncation toward zero, the semantics of Rust's `as i32` cast on a
finite float value. -/
def truncToInt (q : ℚ) : ℤ :=
  if q < 0 then ⌈q⌉ else ⌊q⌋

/-- The x coordinate the `food_spawner` system computes from one random
draw: `((random::<f32>() - 0.5) * ARENA_WIDTH as f32) as i32`. -/
def foodCoordX (draw : ℚ) : ℤ :=
  truncToInt ((draw - 0.5) * (ARENA_WIDTH : ℚ))

/-- The y coordinate the `food_spawner` system computes from one random
draw: `((random::<f32>() - 0.5) * ARENA_HEIGHT as f32) as i32`. -/
def foodCoordY (draw : ℚ) : ℤ :=
  truncToInt ((draw - 0.5) * (ARENA_HEIGHT : ℚ))

/-- A 3-vector of rationals, the idealised `Vec3`. -/
structure Vec3 where
  x : ℚ
  y : ℚ
  z : ℚ
deriving DecidableEq, Repr

/-- The `Transform` component: only the fields the two render systems
touch (translation and scale). -/
structure Transform where
  translation : Vec3
  scale : Vec3
deriving DecidableEq, Repr

/-- The primary window's resolution as the render systems read it. -/
structure WindowRes where
  width : ℚ
  height : ℚ
deriving DecidableEq, Repr

/-- One entity as the render systems see it: the components the render
queries can read or write. -/
structure Entity where
  position : Position
  size : Size
  direction : Direction
  transform : Transform
deriving DecidableEq, Repr

/-- The `size_scaling` system on one queried entity: writes the
transform scale from the entity's `Size` and the window resolution. -/
def size_scaling (window : WindowRes) (e : Entity) : Entity :=
  { e with transform :=
      { e.transform with scale :=
          ⟨e.size.width / (ARENA_WIDTH : ℚ) * window.width,
            e.size.height / (ARENA_HEIGHT : ℚ) * window.height, 1⟩ } }

/-- The `position_translation` system on one queried entity: writes the
transform translation from the entity's `Position` and the window
resolution, through `convert`. -/
def position_translation (window : WindowRes) (e : Entity) : Entity :=
  { e with transform :=
      { e.transform with translation :=
          ⟨convert (e.position.x : ℚ) window.width (ARENA_WIDTH : ℚ),
            convert (e.position.y : ℚ) window.height (ARENA_HEIGHT : ℚ), 0⟩ } }

/-- Helper: the truncating remainder by 10 of an integer in [-10, 10]
lies in [-9, 9]. -/
theorem tmod_ten_mem (a : ℤ) (h1 : -10 ≤ a) (h2 : a ≤ 10) :
    -9 ≤ a.tmod 10 ∧ a.tmod 10 ≤ 9 := by
  interval_cases a <;> decide

/-- Helper: one movement tick keeps both coordinates in [-9, 9]. -/
theorem snakeMovementStep_mem (d : Direction) (p : Position)
    (h : -9 ≤ p.x ∧ p.x ≤ 9 ∧ -9 ≤ p.y ∧ p.y ≤ 9) :
    -9 ≤ (snakeMovementStep d p).x ∧ (snakeMovementStep d p).x ≤ 9 ∧
      -9 ≤ (snakeMovementStep d p).y ∧ (snakeMovementStep d p).y ≤ 9 := by
  obtain ⟨hx1, hx2, hy1, hy2⟩ := h
  cases d <;>
    simp only [snakeMovementStep, ARENA_WIDTH, ARENA_HEIGHT]
  · exact ⟨(tmod_ten_mem _ (by omega) (by omega)).1,
      (tmod_ten_mem _ (by omega) (by omega)).2, hy1, hy2⟩
  · exact ⟨hx1, hx2, (tmod_ten_mem _ (by omega) (by omega)).1,
      (tmod_ten_mem _ (by omega) (by omega)).2⟩
  · exact ⟨(tmod_ten_mem _ (by omega) (by omega)).1,
      (tmod_ten_mem _ (by omega) (by omega)).2, hy1, hy2⟩
  · exact ⟨hx1, hx2, (tmod_ten_mem _ (by omega) (by omega)).1,
      (tmod_ten_mem _ (by omega) (by omega)).2⟩

/-- C1: the claim states the pixel coordinate equals
`p/G*W - W/2 + (W/G)/2`; the code's `convert` instead subtracts
`bound_game / 2` rather than `bound_window / 2`. At grid coordinate 0
with the actual window dimension 500 and arena dimension 10, the code
computes 20 while the centered formula of the claim gives -225, so the
arena is not centered in the window: the code diverges from its stated
intent. -/
theorem C1_convert_not_centered :
    convert 0 RES_WIDTH 10 = 20 ∧
    (0 : ℚ) / 10 * RES_WIDTH - RES_WIDTH / 2 + RES_WIDTH / 10 / 2 = -225 ∧
    convert 0 RES_WIDTH 10 ≠ (0 : ℚ) / 10 * RES_WIDTH - RES_WIDTH / 2 + RES_WIDTH / 10 / 2 := by
  refine ⟨?_, ?_, ?_⟩ <;> norm_num [convert, RES_WIDTH]

/-- C2: from any start with both coordinates in [-9, 9], every sequence
of movement ticks keeps both coordinates in [-9, 9]; moreover negative
coordinates do occur and are not clamped (one Left tick from x = 0
yields x = -1). -/
theorem C2_movement_range_invariant (p : Position)
    (hx : -9 ≤ p.x ∧ p.x ≤ 9) (hy : -9 ≤ p.y ∧ p.y ≤ 9)
    (ds : List Direction) :
    (-9 ≤ (runMoves p ds).x ∧ (runMoves p ds).x ≤ 9 ∧
      -9 ≤ (runMoves p ds).y ∧ (runMoves p ds).y ≤ 9) ∧
    runMoves ⟨0, 3⟩ [Direction.Left] = ⟨-1, 3⟩ := by
  refine ⟨?_, by decide⟩
  induction ds generalizing p with
  | nil => exact ⟨hx.1, hx.2, hy.1, hy.2⟩
  | cons d ds ih =>
      have hstep := snakeMovementStep_mem d p ⟨hx.1, hx.2, hy.1, hy.2⟩
      exact ih (snakeMovementStep d p) ⟨hstep.1, hstep.2.1⟩ ⟨hstep.2.2.1, hstep.2.2.2⟩

/-- Witness for C2 at the spawn position and a one-tick move list. -/
theorem C2_movement_range_invariant_witness :
    (-9 ≤ (runMoves ⟨3, 3⟩ [Direction.Up]).x ∧ (runMoves ⟨3, 3⟩ [Direction.Up]).x ≤ 9 ∧
      -9 ≤ (runMoves ⟨3, 3⟩ [Direction.Up]).y ∧ (runMoves ⟨3, 3⟩ [Direction.Up]).y ≤ 9) ∧
    runMoves ⟨0, 3⟩ [Direction.Left] = ⟨-1, 3⟩ :=
  C2_movement_range_invariant ⟨3, 3⟩ (by decide) (by decide) [Direction.Up]

/-- C3: a desired direction equal to the opposite of the current
direction leaves the direction unchanged, and any other desired
direction (the current direction itself included) replaces it. -/
theorem C3_opposite_rejection (cur dir : Direction) :
    applyDirection cur cur.opposite = cur ∧
    (dir ≠ cur.opposite → applyDirection cur dir = dir) :=
  ⟨by simp [applyDirection], fun h => by simp [applyDirection, h]⟩

/-- Witness for C3: direction Up with desired Left (not the opposite). -/
theorem C3_opposite_rejection_witness :
    applyDirection Direction.Up Direction.Up.opposite = Direction.Up ∧
    applyDirection Direction.Up Direction.Left = Direction.Left :=
  ⟨(C3_opposite_rejection Direction.Up Direction.Left).1,
    (C3_opposite_rejection Direction.Up Direction.Left).2 (by decide)⟩

/-- C4: the desired direction is chosen by checking the pressed keys in
the fixed priority order left, down, up, right, and with no arrow key
pressed it equals the current direction, which then leaves the head's
direction unchanged. -/
theorem C4_input_priority (k : ArrowKeys) (cur : Direction) :
    (k.left = true → desiredDir k cur = Direction.Left) ∧
    (k.left = false → k.down = true → desiredDir k cur = Direction.Down) ∧
    (k.left = false → k.down = false → k.up = true → desiredDir k cur = Direction.Up) ∧
    (k.left = false → k.down = false → k.up = false → k.right = true →
      desiredDir k cur = Direction.Right) ∧
    (k.left = false → k.down = false → k.up = false → k.right = false →
      desiredDir k cur = cur ∧ snakeMovementInput k cur = cur) := by
  obtain ⟨l, d, u, r⟩ := k
  cases l <;> cases d <;> cases u <;> cases r <;> cases cur <;>
    simp [desiredDir, snakeMovementInput, applyDirection, Direction.opposite]

/-- Witness for C4: all keys pressed picks Left; no key pressed leaves
the direction unchanged. -/
theorem C4_input_priority_witness :
    desiredDir ⟨true, true, true, true⟩ Direction.Up = Direction.Left ∧
    (desiredDir ⟨false, false, false, false⟩ Direction.Right = Direction.Right ∧
      snakeMovementInput ⟨false, false, false, false⟩ Direction.Right = Direction.Right) :=
  ⟨(C4_input_priority ⟨true, true, true, true⟩ Direction.Up).1 rfl,
    (C4_input_priority ⟨false, false, false, false⟩ Direction.Right).2.2.2.2 rfl rfl rfl rfl⟩

/-- C5: on a tick whose timer just finished, the position changes by
exactly ±1 on the axis selected by the direction and that coordinate is
reduced with the truncating remainder by 10; when the timer has not
just finished, the position is unchanged. -/
theorem C5_movement_tick (p : Position) :
    snakeMovement true Direction.Left p = { p with x := (p.x - 1).tmod 10 } ∧
    snakeMovement true Direction.Right p = { p with x := (p.x + 1).tmod 10 } ∧
    snakeMovement true Direction.Up p = { p with y := (p.y + 1).tmod 10 } ∧
    snakeMovement true Direction.Down p = { p with y := (p.y - 1).tmod 10 } ∧
    ∀ d, snakeMovement false d p = p :=
  ⟨rfl, rfl, rfl, rfl, fun _ => rfl⟩

/-- Helper: for a draw in [0, 1), the food coordinate computed by the
spawner lies in [-5, 5), the lower bound attained. -/
theorem foodCoordX_mem (d : ℚ) (h0 : 0 ≤ d) (h1 : d < 1) :
    -5 ≤ foodCoordX d ∧ foodCoordX d < 5 := by
  have hc : ((ARENA_WIDTH : ℤ) : ℚ) = 10 := by norm_num [ARENA_WIDTH]
  have hq0 : (-5 : ℚ) ≤ (d - 0.5) * 10 := by nlinarith
  have hq1 : (d - 0.5) * 10 < 5 := by nlinarith
  unfold foodCoordX truncToInt
  rw [hc]
  split
  · rename_i hneg
    constructor
    · exact_mod_cast hq0.trans (Int.le_ceil _)
    · have h0c : ⌈(d - 0.5) * 10⌉ ≤ (0 : ℤ) :=
        Int.ceil_le.mpr (by exact_mod_cast hneg.le)
      omega
  · rename_i hpos
    constructor
    · have h0f : 0 ≤ ⌊(d - 0.5) * 10⌋ := Int.floor_nonneg.mpr (not_lt.mp hpos)
      omega
    · exact Int.floor_lt.mpr (by exact_mod_cast hq1)

/-- Helper: both axes use the same arena dimension, so the two food
coordinate functions agree. -/
theorem foodCoordY_eq_foodCoordX (d : ℚ) : foodCoordY d = foodCoordX d := rfl

/-- C6 counterexample: at draw exactly 0 the spawner computes
`((0 - 0.5) * 10) as i32 = -5`, which is not strictly between -5 and 5,
so the claimed strict bounds fail. All values involved are exactly
representable in `f32`, so the rational model is exact here. -/
theorem C6_strict_bounds_counterexample :
    foodCoordX 0 = -5 ∧ ¬(-5 < foodCoordX 0 ∧ foodCoordX 0 < 5) := by
  have h : foodCoordX 0 = -5 := by
    unfold foodCoordX truncToInt
    rw [show ((0 : ℚ) - 0.5) * ((ARENA_WIDTH : ℤ) : ℚ) = ((-5 : ℤ) : ℚ) by
        norm_num [ARENA_WIDTH],
      if_pos (show ((-5 : ℤ) : ℚ) < 0 by norm_num), Int.ceil_intCast]
  exact ⟨h, by rw [h]; decide⟩

/-- C6 amended: for every pair of draws in [0, 1) the spawned food
position satisfies -(dimension/2) ≤ coordinate < dimension/2 on each
axis (the lower bound -5 is attainable, at draw 0, so it is non-strict). -/
theorem C6_food_bounds (dx dy : ℚ)
    (h : 0 ≤ dx ∧ dx < 1 ∧ 0 ≤ dy ∧ dy < 1) :
    (-5 ≤ foodCoordX dx ∧ foodCoordX dx < 5) ∧
    (-5 ≤ foodCoordY dy ∧ foodCoordY dy < 5) := by
  obtain ⟨h0x, h1x, h0y, h1y⟩ := h
  exact ⟨foodCoordX_mem dx h0x h1x,
    (foodCoordY_eq_foodCoordX dy) ▸ foodCoordX_mem dy h0y h1y⟩

/-- Witness for C6 at the central draw 0.5 on both axes. -/
theorem C6_food_bounds_witness :
    (-5 ≤ foodCoordX 0.5 ∧ foodCoordX 0.5 < 5) ∧
    (-5 ≤ foodCoordY 0.5 ∧ foodCoordY 0.5 < 5) :=
  C6_food_bounds 0.5 0.5 ⟨by norm_num, by norm_num, by norm_num, by norm_num⟩

/-- C7: starting from the spawn direction Up, an input frame with only
Left pressed followed by an input frame with only Down pressed yields
final direction Down. -/
theorem C7_left_then_down :
    snakeMovementInput ⟨false, true, false, false⟩
        (snakeMovementInput ⟨true, false, false, false⟩ spawnSnakeDirection) =
      Direction.Down := by
  decide

/-- C8: the grid-to-pixel conversion is deterministic and affine in the
grid coordinate: equal positions map to equal pixels, and there is a
constant c, independent of p, with convert p W G = p * (W / G) + c. -/
theorem C8_convert_affine (W G : ℚ) :
    (∀ p q : ℚ, p = q → convert p W G = convert q W G) ∧
    ∃ c : ℚ, ∀ p : ℚ, convert p W G = p * (W / G) + c := by
  refine ⟨fun p q h => by rw [h], ⟨W / G / 2 - G / 2, fun p => ?_⟩⟩
  unfold convert
  ring

/-- C9: each render system writes only the entity's transform — the
scale from the window and the entity's size, the translation from the
window and the entity's position — and leaves the position, size and
head direction components unchanged. -/
theorem C9_render_writes_only_transform (w : WindowRes) (e : Entity) :
    (size_scaling w e).position = e.position ∧
    (size_scaling w e).size = e.size ∧
    (size_scaling w e).direction = e.direction ∧
    (position_translation w e).position = e.position ∧
    (position_translation w e).size = e.size ∧
    (position_translation w e).direction = e.direction ∧
    (size_scaling w e).transform.translation = e.transform.translation ∧
    (position_translation w e).transform.scale = e.transform.scale ∧
    (size_scaling w e).transform.scale =
      ⟨e.size.width / (ARENA_WIDTH : ℚ) * w.width,
        e.size.height / (ARENA_HEIGHT : ℚ) * w.height, 1⟩ ∧
    (position_translation w e).transform.translation =
      ⟨convert (e.position.x : ℚ) w.width (ARENA_WIDTH : ℚ),
        convert (e.position.y : ℚ) w.height (ARENA_HEIGHT : ℚ), 0⟩ :=
  ⟨rfl, rfl, rfl, rfl, rfl, rfl, rfl, rfl, rfl, rfl⟩

/-- C10: on all four directions, opposite is an involution with no
fixed point, so the opposite-direction rejection test is symmetric in
the two directions. -/
theorem C10_opposite_involution :
    ∀ d : Direction, d.opposite.opposite = d ∧ d.opposite ≠ d := by
  decide

end SnakeGame
